import Mathlib

set_option maxRecDepth 8000

/-!
Verification of the `pip_search` concurrent metadata-acquisition pipeline.

Shallow embedding of `src/pip_search/utils.py`, `src/pip_search/pip_search.py`
and `src/pip_search/__main__.py`.  HTTP traffic, HTML parsing and hashing are
external effects: they enter the embedding as explicit parameters (an abstract
hash function `H : String → String` for `hashlib.sha256(...).hexdigest()`,
response statuses and parsed bodies as inductive data), while every piece of
control flow — loops, breaks, exception handlers, classification branches —
is translated directly from the Python source.
-/

namespace PipSearch

/-! ## Challenge solver (`get_session` in `utils.py`, lines 227–248) -/

/-- `characters = string.ascii_letters + string.digits`: the fixed 62-character
brute-force alphabet of the proof-of-work loop (lowercase, uppercase, digits,
in this order). -/
def characters : List Char :=
  "abcdefghijklmnopqrstuvwxyzABCDEFGHIJKLMNOPQRSTUVWXYZ0123456789".data

/-- `c = base + c1 + c2`: the candidate pre-image hashed in the PoW loop.
In Python `c1`/`c2` are one-character strings drawn from `characters`. -/
def powInput (base : String) (c1 c2 : Char) : String :=
  base ++ String.mk [c1] ++ String.mk [c2]

/-- The inner `for c2 in characters` loop: at the first `c2` whose hash of
`base + c1 + c2` equals the target, set `answer = c1 + c2` and `break`;
otherwise the loop ends with `answer` still empty. -/
def powSolveInner (H : String → String) (base target : String) (c1 : Char) :
    List Char → String
  | [] => ""
  | c2 :: rest =>
    if H (powInput base c1 c2) = target then String.mk [c1, c2]
    else powSolveInner H base target c1 rest

/-- The outer `for c1 in characters` loop: run the inner loop, then
`if answer: break` — a non-empty answer stops the enumeration. -/
def powSolveOuter (H : String → String) (base target : String) :
    List Char → String
  | [] => ""
  | c1 :: rest =>
    let answer := powSolveInner H base target c1 characters
    if answer = "" then powSolveOuter H base target rest else answer

/-- The complete PoW answer computation of `get_session`: both nested loops
over the full alphabet.  Returns the two-character answer, or `""` when no
candidate matches (the Python variable `answer` keeps its initial value). -/
def powSolve (H : String → String) (base target : String) : String :=
  powSolveOuter H base target characters

/-- The candidate pairs `(c1, c2)` in exactly the order the nested loops
visit them. -/
def powCandidates : List (Char × Char) :=
  characters.flatMap (fun c1 => characters.map (fun c2 => (c1, c2)))

/-- The match test of the PoW loop, as a Boolean predicate on a candidate
pair: `hashlib.sha256(c.encode()).hexdigest() == hash`. -/
def powMatches (H : String → String) (base target : String)
    (p : Char × Char) : Bool :=
  H (powInput base p.1 p.2) == target

/-- The POST body assembled by `get_session` after the PoW loop
(`data = {"token": ..., "data": [{"ty": "pow", "base": ..., "answer": answer,
"hmac": ..., "expires": ...}]}`), keeping the fields the claim is about. -/
structure PowBackData where
  token : String
  base : String
  answer : String
  hmac : String
  expires : String
deriving Repr, DecidableEq

/-- `get_session` unconditionally builds the post-back payload from whatever
the PoW loop produced — there is no check between the loop and the POST. -/
def get_session_post_data (H : String → String)
    (base target hmac expires token : String) : PowBackData :=
  { token := token
    base := base
    answer := powSolve H base target
    hmac := hmac
    expires := expires }

/-! ## Query construction (`get_snippets` line 102, `get_session` lines 203–204,
`__main__.py` line 101) -/

/-- `query = "".join(args.query)` in `get_snippets`: the search terms are
concatenated with the empty separator before being sent as the `q` parameter
of every paginated snippet request. -/
def get_snippets_query (args_query : List String) : String :=
  String.intercalate "" args_query

/-- `query = "".join(query)` in `get_session`: the same empty-separator join
for the session-establishment request. -/
def get_session_query (args_query : List String) : String :=
  String.intercalate "" args_query

/-- `query = " ".join(args.query)` in `__main__.async_main`: the space-joined
form, used only for the displayed table title, never for a request. -/
def main_display_query (args_query : List String) : String :=
  String.intercalate " " args_query

/-- The query as the spec describes it ("query terms (positional, joined
with spaces)"), written from the spec's words for comparison with the
request-side joins above. -/
def spec_query (args_query : List String) : String :=
  String.intercalate " " args_query

/-! ## Version extraction (`get_version_from_link` in `pip_search.py`,
lines 112–131) -/

/-- Outcome of the detail-page fetch and selector, the two effectful steps of
`get_version_from_link`: the GET itself may raise (`raised`), or it returns a
page on which `soup.select_one('p[class="release__version"]')` either finds
nothing (`page none` — the subsequent `.text` raises `AttributeError`) or
yields an element with the given text (`page (some t)`). -/
inductive VersionFetch where
  | raised : VersionFetch
  | page : Option String → VersionFetch
deriving Repr, DecidableEq

/-- `get_version_from_link`: `version = '[notfound]'`; inside the `try`, after
a successful fetch `version = "noversion"`, then the selector's text, stripped;
every exception is caught and `finally: return version` returns whatever value
`version` held when the failure happened.  The function is total: it never
propagates an exception. -/
def get_version_from_link : VersionFetch → String
  | .raised => "[notfound]"
  | .page none => "noversion"
  | .page (some t) => t.trim

/-! ## Package records and enrichment (`Package`, `set_gh_info`,
`get_repo_info`, `process_snippet` in `pip_search.py`) -/

/-- The GitHub-related fields of the `Package` dataclass, with their declared
defaults (`stars = forks = watchers = 0`, `github_link = ""`,
`info_set = False`).  The scraped text fields are orthogonal to the
enrichment claims and omitted. -/
structure PackageGH where
  stars : Nat
  forks : Nat
  watchers : Nat
  github_link : String
  info_set : Bool
deriving Repr, DecidableEq

/-- A freshly constructed `Package`: the dataclass field defaults. -/
def mkPackageGH : PackageGH :=
  { stars := 0, forks := 0, watchers := 0, github_link := "", info_set := false }

/-- The info dictionary built by `get_repo_info`
(`{"stars": 0, "forks": 0, "watchers": 0, "set": False, "github_link": ""}`
and its populated variant). -/
structure RepoInfo where
  stars : Nat
  forks : Nat
  watchers : Nat
  set : Bool
  github_link : String
deriving Repr, DecidableEq

/-- The initial zeroed/unset info dictionary of `get_repo_info`. -/
def repoInfoInit : RepoInfo :=
  { stars := 0, forks := 0, watchers := 0, set := false, github_link := "" }

/-- `Package.set_gh_info`: copies `stars`/`forks`/`watchers`/`github_link`
out of the dictionary and sets `info_set = True` unconditionally — it never
consults the dictionary's own `set` flag. -/
def set_gh_info (p : PackageGH) (info : RepoInfo) : PackageGH :=
  { p with
    stars := info.stars
    forks := info.forks
    watchers := info.watchers
    github_link := info.github_link
    info_set := true }

/-- Python `str.split(sep)` for a non-empty separator, on character lists:
scan left to right, breaking at each non-overlapping occurrence of `sep`.
The fuel argument bounds the scan; any value ≥ the input length makes the
function agree with Python's split. -/
def pySplitAux (sep : List Char) :
    Nat → List Char → List Char → List (List Char)
  | _, acc, [] => [acc.reverse]
  | 0, acc, rest => [acc.reverse ++ rest]
  | fuel + 1, acc, c :: rest =>
    if sep.isPrefixOf (c :: rest) then
      acc.reverse :: pySplitAux sep fuel [] (List.drop sep.length (c :: rest))
    else
      pySplitAux sep fuel (c :: acc) rest

/-- Python `repo.split(sep)` on strings. -/
def pySplit (s sep : String) : List String :=
  (pySplitAux sep.data s.data.length [] s.data).map String.mk

/-- Python `str.rstrip("/")`: drop trailing `'/'` characters. -/
def pyRstripSlash (s : String) : String :=
  String.mk (s.data.reverse.dropWhile (fun c => c = '/')).reverse

/-- `repo.split("github.com/")[1].rstrip("/")`: `none` when the split has no
second element (Python raises `IndexError`, caught by `get_repo_info`). -/
def parseRepoName (repo : String) : Option String :=
  match pySplit repo "github.com/" with
  | _ :: second :: _ => some (pyRstripSlash second)
  | _ => none

/-- The parsed body of a 200 response from the GitHub API, as `r.json()`
followed by `.get(...)` calls observes it:
* `malformed` — `r.json()` raises `json.JSONDecodeError` (a `ValueError`);
* `notDict` — the JSON parses but is not an object, so `.get` raises
  `AttributeError`;
* `fields s f w` — an object whose `stargazers_count` / `forks_count` /
  `watchers_count` keys are present (`some`) or absent (`none`, and `.get`
  supplies the default `0`). -/
inductive JsonBody where
  | malformed : JsonBody
  | notDict : JsonBody
  | fields : Option Nat → Option Nat → Option Nat → JsonBody
deriving Repr, DecidableEq

/-- The Python exceptions the embedding distinguishes. -/
inductive PyError where
  | jsonDecodeError : PyError
  | parseError : PyError
deriving Repr, DecidableEq

/-- `get_repo_info` (lines 204–243), given the repo URL, the response status
and the parsed body of a 200 response.  Faithful points: the `IndexError`
of the split is caught (zeroed info returned); 401/404/403 return the zeroed
info; on 200 the `try` block catches only `KeyError`, `TypeError` and
`AttributeError`, so a `json.JSONDecodeError` from `r.json()` escapes; any
other status falls off the end of the function and returns Python `None`. -/
def get_repo_info (repo : String) (status : Nat) (body : JsonBody) :
    Except PyError (Option RepoInfo) :=
  match parseRepoName repo with
  | none => .ok (some repoInfoInit)
  | some _ =>
    if status = 401 then .ok (some repoInfoInit)
    else if status = 404 then .ok (some repoInfoInit)
    else if status = 403 then .ok (some repoInfoInit)
    else if status = 200 then
      match body with
      | .malformed => .error .jsonDecodeError
      | .notDict => .ok (some repoInfoInit)
      | .fields s f w =>
        .ok (some { stars := s.getD 0
                    forks := f.getD 0
                    watchers := w.getD 0
                    set := true
                    github_link := repo })
    else .ok none

/-- The enrichment step of `process_snippet` (lines 172–175):
`info = await get_github_info(...)`, then `if info: pack.set_gh_info(info)`.
`get_github_info` hands back either `None` (no GitHub homepage, or a status
outside {200, 401, 403, 404}) or the info dictionary of `get_repo_info` — a
five-key dictionary, hence always truthy, even when `set` is `False`. -/
def enrich_step (p : PackageGH) (ghInfo : Option RepoInfo) : PackageGH :=
  match ghInfo with
  | some info => set_gh_info p info
  | none => p

/-- The enrichment path of one snippet once a GitHub link was resolved:
`get_repo_info` followed by the truthiness test and `set_gh_info`; an
exception escaping `get_repo_info` propagates. -/
def enrich_from_api (p : PackageGH) (repo : String) (status : Nat)
    (body : JsonBody) : Except PyError PackageGH :=
  match get_repo_info repo status body with
  | .error e => .error e
  | .ok info => .ok (enrich_step p info)

/-- The fields `process_snippet` extracts directly from a search-result
fragment (whitespace-normalized name, release timestamp, description, and
the resolved detail link). -/
structure FragData where
  name : String
  released : String
  description : String
  link : String
deriving Repr, DecidableEq

/-- The scraped fields of the `Package` record built by `process_snippet`. -/
structure PackageRec where
  name : String
  version : String
  released : String
  description : String
  link : String
deriving Repr, DecidableEq

/-- `pack = Package(package, version, released, description, link)` in
`process_snippet`: the record is built from the fragment fields and from
whatever `get_version_from_link` returned for the detail page. -/
def assemble_record (frag : FragData) (f : VersionFetch) : PackageRec :=
  { name := frag.name
    version := get_version_from_link f
    released := frag.released
    description := frag.description
    link := frag.link }

/-! ## Retry engine (`check_pypi_version` in `utils.py`, lines 91–128) -/

/-- What one iteration of the `for attempt in range(max_retries)` loop
observes: the GET-and-parse either succeeds with a `(name, version)` split of
the page header, raises `httpx.ConnectTimeout`, or raises some other
exception. -/
inductive AttemptOutcome where
  | success : String → String → AttemptOutcome
  | connectTimeout : AttemptOutcome
  | otherError : AttemptOutcome
deriving Repr, DecidableEq

/-- `backoff_time = 0.5 * (2 ** attempt)` (seconds). -/
def backoff_time (attempt : Nat) : ℚ :=
  (1 / 2) * 2 ^ attempt

/-- The retry loop of `check_pypi_version`: `remaining` is how many of the
`range(max_retries)` iterations are left, `attempt` the current index.
Returns the `(pkg_name, pkg_version)` pair (both still `None` unless some
attempt succeeded) together with the list of `asyncio.sleep` durations the
loop performs, in order.  On `ConnectTimeout` the loop sleeps
`backoff_time attempt` only when it is not on its last iteration
(`attempt < max_retries - 1`); any other exception `break`s at once. -/
def attemptLoop (outcomes : Nat → AttemptOutcome) :
    Nat → Nat → (Option String × Option String) × List ℚ
  | 0, _ => ((none, none), [])
  | remaining + 1, attempt =>
    match outcomes attempt with
    | .success n v => ((some n, some v), [])
    | .connectTimeout =>
      if remaining = 0 then ((none, none), [])
      else
        let r := attemptLoop outcomes remaining (attempt + 1)
        (r.1, backoff_time attempt :: r.2)
    | .otherError => ((none, none), [])

/-- `check_pypi_version`: the retry loop starting at attempt 0, followed by
the unconditional `await asyncio.sleep(0.1)` and the final
`return pkg_name, pkg_version` — a tuple on every path. -/
def check_pypi_version (outcomes : Nat → AttemptOutcome)
    (max_retries : Nat) : (Option String × Option String) × List ℚ :=
  let r := attemptLoop outcomes max_retries 0
  (r.1, r.2 ++ [1 / 10])

/-! ## Version-diff classification (`check_local_libs` in `utils.py`,
lines 130–191) -/

/-- One entry of `get_local_libs`' result:
`{'name': ..., 'version': ..., 'distpath': ...}`. -/
structure LocalLib where
  name : String
  version : String
  distpath : String
deriving Repr, DecidableEq

/-- One element of the `asyncio.gather(*tasks, return_exceptions=True)`
result, as the classification loop inspects it:
* `exn` — the task raised and the exception was returned as a value;
* `nothing` — the result is `None`;
* `malformed` — not a tuple/list of length ≥ 2;
* `pair n v` — a `(pypi_name, pypi_version)` tuple, each component possibly
  `None`. -/
inductive RemoteResult where
  | exn : RemoteResult
  | nothing : RemoteResult
  | malformed : RemoteResult
  | pair : Option String → Option String → RemoteResult
deriving Repr, DecidableEq

/-- The classification loop of `check_local_libs` (lines 157–187), zipping
each local entry with its gathered result: exceptions, `None`, malformed
tuples and pairs with a `None` field append the entry to `error_list`;
a well-formed pair whose version differs from the local one appends the
name to `outdated_libs`; an equal version touches neither list. -/
def check_local_libs_classify :
    List (LocalLib × RemoteResult) → List String × List LocalLib
  | [] => ([], [])
  | (lib, r) :: rest =>
    let acc := check_local_libs_classify rest
    match r with
    | .exn => (acc.1, lib :: acc.2)
    | .nothing => (acc.1, lib :: acc.2)
    | .malformed => (acc.1, lib :: acc.2)
    | .pair none _ => (acc.1, lib :: acc.2)
    | .pair (some _) none => (acc.1, lib :: acc.2)
    | .pair (some _) (some v) =>
      if v ≠ lib.version then (lib.name :: acc.1, acc.2) else acc

/-- Per-entry reading of the same loop, used to state what the aggregate
lists contain: the name contributed to `outdated_libs`, if any. -/
def entry_outdated (lib : LocalLib) : RemoteResult → Option String
  | .pair (some _) (some v) =>
    if v ≠ lib.version then some lib.name else none
  | _ => none

/-- Per-entry reading of the same loop: the entry contributed to
`error_list`, if any. -/
def entry_errored (lib : LocalLib) : RemoteResult → Option LocalLib
  | .exn => some lib
  | .nothing => some lib
  | .malformed => some lib
  | .pair none _ => some lib
  | .pair (some _) none => some lib
  | .pair (some _) (some _) => none

/-! ## Fan-out, exception propagation and session close
(`search` in `pip_search.py` lines 133–187, `check_local_libs`) -/

/-- `await asyncio.gather(*tasks)` *without* `return_exceptions`: if every
task succeeds the list of results is returned in task order; if any task
raises, awaiting the gather re-raises that exception and the sibling
results are discarded.  (The embedding surfaces the first failed task in
list order; which of several failures wins is timing-dependent in Python,
but *that* some failure propagates is not.) -/
def gatherExc {ε α : Type} : List (Except ε α) → Except ε (List α)
  | [] => .ok []
  | .error e :: _ => .error e
  | .ok a :: rest =>
    match gatherExc rest with
    | .error e => .error e
    | .ok as => .ok (a :: as)

/-- The body of `search` after `get_session` succeeded, tracking how many
times `client.aclose()` runs: `get_snippets` (which may raise), then
`asyncio.gather` over `process_snippet` tasks without `return_exceptions`,
then — only if nothing raised — `await client.aclose()` and `return`.
There is no `try`/`finally`, so an exception skips the close. -/
def search_run {ε α β : Type} (snips : Except ε (List α))
    (process : α → Except ε β) : Except ε (List β) × Nat :=
  match snips with
  | .error e => (.error e, 0)
  | .ok frags =>
    match gatherExc (frags.map process) with
    | .error e => (.error e, 0)
    | .ok res => (.ok res, 1)

/-- The body of `check_local_libs` after `get_session` succeeded, with the
same close counter: `get_local_libs` (disk access, may raise), then the
gather *with* `return_exceptions=True` (never raises — its per-task failures
are the `RemoteResult.exn` values), the classification loop, `aclose`,
`return`.  Again no `try`/`finally` protects the close. -/
def check_local_libs_run {ε : Type}
    (libs : Except ε (List (LocalLib × RemoteResult))) :
    Except ε (List String × List LocalLib) × Nat :=
  match libs with
  | .error e => (.error e, 0)
  | .ok ps => (.ok (check_local_libs_classify ps), 1)

/-! ## Helper lemmas -/

theorem twoChar_ne_empty (c1 c2 : Char) : String.mk [c1, c2] ≠ "" := by
  simp [String.ext_iff]

theorem powSolveInner_eq_find (H : String → String) (base target : String)
    (c1 : Char) (l : List Char) :
    powSolveInner H base target c1 l =
      match l.find? (fun c2 => H (powInput base c1 c2) == target) with
      | some c2 => String.mk [c1, c2]
      | none => "" := by
  induction l with
  | nil => rfl
  | cons c2 rest ih =>
    by_cases h : H (powInput base c1 c2) = target
    · simp [powSolveInner, List.find?, h]
    · simp only [powSolveInner, List.find?]
      rw [if_neg h, beq_eq_false_iff_ne.mpr h, ih]

theorem powSolveOuter_eq_find (H : String → String) (base target : String)
    (l : List Char) :
    powSolveOuter H base target l =
      match (l.flatMap (fun c1 => characters.map (fun c2 => (c1, c2)))).find?
          (powMatches H base target) with
      | some p => String.mk [p.1, p.2]
      | none => "" := by
  induction l with
  | nil => rfl
  | cons c1 rest ih =>
    rw [List.flatMap_cons, List.find?_append, List.find?_map]
    have hinner := powSolveInner_eq_find H base target c1 characters
    cases hfind : characters.find? (fun c2 => H (powInput base c1 c2) == target) with
    | some c2 =>
      have : (powMatches H base target ∘ fun c2 => (c1, c2)) =
          fun c2 => H (powInput base c1 c2) == target := rfl
      rw [powSolveOuter, hinner, hfind, this, hfind]
      simp [twoChar_ne_empty]
    | none =>
      have : (powMatches H base target ∘ fun c2 => (c1, c2)) =
          fun c2 => H (powInput base c1 c2) == target := rfl
      rw [powSolveOuter, hinner, hfind, this, hfind]
      simp [ih]

theorem powSolve_eq_find (H : String → String) (base target : String) :
    powSolve H base target =
      match powCandidates.find? (powMatches H base target) with
      | some p => String.mk [p.1, p.2]
      | none => "" :=
  powSolveOuter_eq_find H base target characters

theorem powSolve_eq_empty_of_no_match (H : String → String)
    (base target : String)
    (h : ∀ q ∈ powCandidates, powMatches H base target q = false) :
    powSolve H base target = "" := by
  rw [powSolve_eq_find]
  have : powCandidates.find? (powMatches H base target) = none :=
    List.find?_eq_none.mpr (fun a ha => by simp [h a ha])
  rw [this]

theorem mem_powCandidates_iff (p : Char × Char) :
    p ∈ powCandidates ↔ p.1 ∈ characters ∧ p.2 ∈ characters := by
  rw [powCandidates, List.mem_flatMap]
  constructor
  · rintro ⟨a, ha, hm⟩
    rw [List.mem_map] at hm
    obtain ⟨b, hb, rfl⟩ := hm
    exact ⟨ha, hb⟩
  · rintro ⟨h1, h2⟩
    exact ⟨p.1, h1, List.mem_map.mpr ⟨p.2, h2, rfl⟩⟩

/-! ## Claim theorems -/

/-- C1: for every challenge pair `(base, targetHash)` whose (unique) solution
lies in the bounded two-character space over the 62-character alphabet, the
PoW loop of `get_session` returns exactly that answer `c1c2`; moreover the
returned answer is the first match of the fixed-order candidate enumeration
(`for c1 in characters: for c2 in characters:` with `break` at the first
match), and that enumeration has exactly `62 * 62 = 3844` candidates, so at
most 3844 candidates are ever examined. -/
theorem pow_solver_finds_unique_answer (H : String → String)
    (base target : String) (p : Char × Char)
    (h1 : p.1 ∈ characters) (h2 : p.2 ∈ characters)
    (hmatch : powMatches H base target p = true)
    (huniq : ∀ a ∈ characters, ∀ b ∈ characters,
      powMatches H base target (a, b) = true → (a, b) = p) :
    powSolve H base target = String.mk [p.1, p.2]
      ∧ powSolve H base target =
          (match powCandidates.find? (powMatches H base target) with
           | some q => String.mk [q.1, q.2]
           | none => "")
      ∧ powCandidates.length = 62 * 62 := by
  have hmem : p ∈ powCandidates := (mem_powCandidates_iff p).mpr ⟨h1, h2⟩
  have hfind : powCandidates.find? (powMatches H base target) = some p := by
    cases hf : powCandidates.find? (powMatches H base target) with
    | none =>
      have := List.find?_eq_none.mp hf p hmem
      simp [hmatch] at this
    | some q =>
      have hq : powMatches H base target q = true := List.find?_some hf
      have hqmem := (mem_powCandidates_iff q).mp (List.mem_of_find?_eq_some hf)
      have : (q.1, q.2) = p := huniq q.1 hqmem.1 q.2 hqmem.2 (by simpa using hq)
      rw [show q = (q.1, q.2) from rfl, this]
  refine ⟨?_, powSolve_eq_find H base target, ?_⟩
  · rw [powSolve_eq_find, hfind]
  · rw [powCandidates, List.length_flatMap]
    simp [characters]

theorem pow_solver_finds_unique_answer_witness :
    powSolve (fun s => if s = "Xab" then "T" else "N") "X" "T" =
      String.mk ['a', 'b'] :=
  (pow_solver_finds_unique_answer (fun s => if s = "Xab" then "T" else "N")
    "X" "T" ('a', 'b') (by decide) (by decide) (by decide) (by decide)).1

/-- C6, counterexample to the claim as stated: a challenge with no solution
in the bounded space (the hash function never returns the target) is *not*
surfaced as a fatal condition — the loop leaves `answer = ""` and
`get_session` still builds and POSTs the authorization payload with the
empty answer. -/
theorem pow_no_match_still_submitted_cex :
    (characters.all fun a => characters.all fun b =>
        !powMatches (fun _ => "nope") "b" "y" (a, b)) = true
      ∧ powSolve (fun _ => "nope") "b" "y" = ""
      ∧ (get_session_post_data (fun _ => "nope") "b" "y" "h" "e" "t").answer
          = "" :=
  ⟨by decide, by rfl, by rfl⟩

/-- C6 (amended): if the PoW enumeration finds no candidate in the bounded
two-character space whose hash matches the target, the loop terminates with
the answer still `""` and the session is nevertheless submitted for
authorization with that empty answer; no `PowUnsolvable` (or any other)
error is surfaced and nothing blocks the POST. -/
theorem pow_no_match_submits_empty_answer (H : String → String)
    (base target hmac expires token : String)
    (h : ∀ a ∈ characters, ∀ b ∈ characters,
      powMatches H base target (a, b) = false) :
    powSolve H base target = ""
      ∧ get_session_post_data H base target hmac expires token =
          { token := token, base := base, answer := "", hmac := hmac,
            expires := expires } := by
  have h' : ∀ q ∈ powCandidates, powMatches H base target q = false := by
    intro q hq
    have hm := (mem_powCandidates_iff q).mp hq
    exact h q.1 hm.1 q.2 hm.2
  have he := powSolve_eq_empty_of_no_match H base target h'
  exact ⟨he, by simp [get_session_post_data, he]⟩

theorem pow_no_match_submits_empty_answer_witness :
    powSolve (fun _ => "zz") "base" "target" = ""
      ∧ get_session_post_data (fun _ => "zz") "base" "target" "m" "x" "tk" =
          { token := "tk", base := "base", answer := "", hmac := "m",
            expires := "x" } :=
  pow_no_match_submits_empty_answer (fun _ => "zz") "base" "target" "m" "x"
    "tk" (by decide)

theorem attemptLoop_step (f : Nat → AttemptOutcome) (rem att : Nat) :
    attemptLoop f (rem + 1) att =
      match f att with
      | .success n v => ((some n, some v), [])
      | .connectTimeout =>
        if rem = 0 then ((none, none), [])
        else ((attemptLoop f rem (att + 1)).1,
          backoff_time att :: (attemptLoop f rem (att + 1)).2)
      | .otherError => ((none, none), []) := rfl

/-- C4: in `check_pypi_version` (with its default `max_retries = 3`):
a connect-timeout is retried with exponential backoff sleeps of
`0.5 * 2 ** attempt` seconds between attempts (0.5 s then 1 s, none after the
last attempt); two timeouts followed by a success resolve the entry with
exactly those two backoff sleeps; three timeouts leave the entry unresolved
(`(None, None)`); any non-timeout exception `break`s immediately with no
backoff sleep; and every attempt sequence — successful or not — ends with the
fixed `asyncio.sleep(0.1)` before the function returns its
`(pkg_name, pkg_version)` tuple (the return type itself shows a tuple is
returned on every path). -/
theorem check_pypi_version_retry_policy (f : Nat → AttemptOutcome)
    (n v : String) :
    (f 0 = .connectTimeout → f 1 = .connectTimeout → f 2 = .success n v →
        check_pypi_version f 3 = ((some n, some v), [1/2, 1, 1/10]))
      ∧ (f 0 = .connectTimeout → f 1 = .connectTimeout →
          f 2 = .connectTimeout →
          check_pypi_version f 3 = ((none, none), [1/2, 1, 1/10]))
      ∧ (f 0 = .otherError →
          check_pypi_version f 3 = ((none, none), [1/10]))
      ∧ (f 0 = .success n v →
          check_pypi_version f 3 = ((some n, some v), [1/10]))
      ∧ (check_pypi_version f 3).2.getLast? = some (1/10) := by
  refine ⟨?_, ?_, ?_, ?_, ?_⟩
  · intro h0 h1 h2
    rw [check_pypi_version]
    rw [show (3 : Nat) = 2 + 1 from rfl, attemptLoop_step, h0]
    rw [show (2 : Nat) = 1 + 1 from rfl, attemptLoop_step, h1]
    rw [show (1 : Nat) = 0 + 1 from rfl, attemptLoop_step, h2]
    simp [backoff_time]
  · intro h0 h1 h2
    rw [check_pypi_version]
    rw [show (3 : Nat) = 2 + 1 from rfl, attemptLoop_step, h0]
    rw [show (2 : Nat) = 1 + 1 from rfl, attemptLoop_step, h1]
    rw [show (1 : Nat) = 0 + 1 from rfl, attemptLoop_step, h2]
    simp [backoff_time]
  · intro h0
    rw [check_pypi_version]
    rw [show (3 : Nat) = 2 + 1 from rfl, attemptLoop_step, h0]
    simp
  · intro h0
    rw [check_pypi_version]
    rw [show (3 : Nat) = 2 + 1 from rfl, attemptLoop_step, h0]
    simp
  · rw [check_pypi_version]
    simp

theorem check_pypi_version_retry_policy_witness :
    check_pypi_version
        (fun k => if k < 2 then .connectTimeout else .success "pkg" "1.0") 3
        = ((some "pkg", some "1.0"), [1/2, 1, 1/10])
      ∧ check_pypi_version (fun _ => .connectTimeout) 3
          = ((none, none), [1/2, 1, 1/10])
      ∧ check_pypi_version (fun _ => .otherError) 3 = ((none, none), [1/10]) :=
  ⟨(check_pypi_version_retry_policy
      (fun k => if k < 2 then .connectTimeout else .success "pkg" "1.0")
      "pkg" "1.0").1 rfl rfl rfl,
   (check_pypi_version_retry_policy (fun _ => .connectTimeout) "pkg"
      "1.0").2.1 rfl rfl rfl,
   (check_pypi_version_retry_policy (fun _ => .otherError) "pkg"
      "1.0").2.2.1 rfl⟩

theorem classify_eq_filterMap (ps : List (LocalLib × RemoteResult)) :
    check_local_libs_classify ps =
      (ps.filterMap (fun q => entry_outdated q.1 q.2),
       ps.filterMap (fun q => entry_errored q.1 q.2)) := by
  induction ps with
  | nil => rfl
  | cons q rest ih =>
    obtain ⟨lib, r⟩ := q
    cases r with
    | exn =>
      simp [check_local_libs_classify, entry_outdated, entry_errored,
        List.filterMap_cons, ih]
    | nothing =>
      simp [check_local_libs_classify, entry_outdated, entry_errored,
        List.filterMap_cons, ih]
    | malformed =>
      simp [check_local_libs_classify, entry_outdated, entry_errored,
        List.filterMap_cons, ih]
    | pair a b =>
      cases a with
      | none =>
        simp [check_local_libs_classify, entry_outdated, entry_errored,
          List.filterMap_cons, ih]
      | some pn =>
        cases b with
        | none =>
          simp [check_local_libs_classify, entry_outdated, entry_errored,
            List.filterMap_cons, ih]
        | some pv =>
          by_cases hv : pv = lib.version
          · simp [check_local_libs_classify, entry_outdated, entry_errored,
              List.filterMap_cons, ih, hv]
          · simp [check_local_libs_classify, entry_outdated, entry_errored,
              List.filterMap_cons, ih, hv]

/-- C5: the classification loop of `check_local_libs` produces exactly the
per-entry partition the claim describes: the errored list collects (in
order, never dropping one) every entry whose gathered result is a captured
exception, `None`, a malformed tuple, or a pair with a `None` field; the
outdated list collects the names of entries whose remote version differs
from the local one; an up-to-date entry lands in neither list.  The gather
runs with `return_exceptions=True`, so a run over any result list — captured
exceptions included — completes normally (`.ok`), i.e. a failed task never
crashes the sibling tasks' aggregation. -/
theorem check_local_libs_classification
    (ps : List (LocalLib × RemoteResult)) (lib : LocalLib) (pn pv : String) :
    check_local_libs_classify ps =
        (ps.filterMap (fun q => entry_outdated q.1 q.2),
         ps.filterMap (fun q => entry_errored q.1 q.2))
      ∧ entry_errored lib .exn = some lib
      ∧ entry_errored lib .nothing = some lib
      ∧ entry_errored lib .malformed = some lib
      ∧ (∀ b, entry_errored lib (.pair none b) = some lib)
      ∧ entry_errored lib (.pair (some pn) none) = some lib
      ∧ (pv ≠ lib.version →
          entry_outdated lib (.pair (some pn) (some pv)) = some lib.name
            ∧ entry_errored lib (.pair (some pn) (some pv)) = none)
      ∧ (pv = lib.version →
          entry_outdated lib (.pair (some pn) (some pv)) = none
            ∧ entry_errored lib (.pair (some pn) (some pv)) = none)
      ∧ @check_local_libs_run Unit (.ok ps)
          = (.ok (check_local_libs_classify ps), 1) := by
  refine ⟨classify_eq_filterMap ps, rfl, rfl, rfl, fun b => rfl, rfl,
    ?_, ?_, rfl⟩
  · intro hv
    exact ⟨by simp [entry_outdated, hv], rfl⟩
  · intro hv
    exact ⟨by simp [entry_outdated, hv], rfl⟩

theorem check_local_libs_classification_witness :
    check_local_libs_classify
        [(⟨"foo", "1.0.0", "p1"⟩, .pair (some "foo") (some "1.1.0")),
         (⟨"bar", "2.0.0", "p2"⟩, .exn),
         (⟨"baz", "3.0.0", "p3"⟩, .pair (some "baz") (some "3.0.0"))]
        = (["foo"], [⟨"bar", "2.0.0", "p2"⟩])
      ∧ entry_outdated ⟨"foo", "1.0.0", "p1"⟩
          (.pair (some "foo") (some "1.1.0")) = some "foo"
      ∧ entry_errored ⟨"baz", "3.0.0", "p3"⟩
          (.pair (some "baz") (some "3.0.0")) = none :=
  ⟨by rfl,
   ((check_local_libs_classification [] ⟨"foo", "1.0.0", "p1"⟩ "foo"
      "1.1.0").2.2.2.2.2.2.1 (by decide)).1,
   ((check_local_libs_classification [] ⟨"baz", "3.0.0", "p3"⟩ "baz"
      "3.0.0").2.2.2.2.2.2.2.1 rfl).2⟩

theorem gatherExc_ok_of_all {ε α : Type} (l : List (Except ε α))
    (h : ∀ x ∈ l, ∃ a, x = .ok a) :
    ∃ as, gatherExc l = .ok as ∧ as.length = l.length := by
  induction l with
  | nil => exact ⟨[], rfl, rfl⟩
  | cons x rest ih =>
    have hrest := fun y hy => h y (List.mem_cons_of_mem x hy)
    obtain ⟨a, rfl⟩ := h x (List.mem_cons_self x rest)
    obtain ⟨as, has, hlen⟩ := ih hrest
    exact ⟨a :: as, by simp [gatherExc, has], by simp [hlen]⟩

theorem gatherExc_error_of_mem {ε α : Type} (l : List (Except ε α)) (e : ε)
    (h : Except.error e ∈ l) :
    ∃ e', gatherExc l = .error e' := by
  induction l with
  | nil => cases h
  | cons x rest ih =>
    cases x with
    | error e0 => exact ⟨e0, rfl⟩
    | ok a =>
      have hr : Except.error e ∈ rest := by
        cases List.mem_cons.mp h with
        | inl h' => simp at h'
        | inr h' => exact h'
      obtain ⟨e', he'⟩ := ih hr
      exact ⟨e', by simp [gatherExc, he']⟩

/-- C2, counterexample to the claim as stated: two fragments, the second of
which hits an unrecoverable parse error — `asyncio.gather` (called without
`return_exceptions`) re-raises it, the successfully assembled record of the
first fragment is discarded, no batch is returned, and the whole `search`
aborts with the error (the close is skipped as well). -/
theorem search_fragment_error_aborts_batch_cex :
    @search_run Unit Nat Nat (.ok [1, 2])
      (fun a => if a = 2 then .error () else .ok (a + 10))
      = (.error (), 0) := rfl

/-- C2 (amended): an unrecoverable parse error in a single fragment's task is
*not* contained: `search` gathers the `process_snippet` tasks without
`return_exceptions`, so if any fragment's task fails the whole search
returns that failure and no batch of records; the batch (one record per
fragment) is returned only when every fragment's task succeeds. -/
theorem search_fragment_error_propagates {ε α β : Type}
    (frags : List α) (process : α → Except ε β) :
    ((∃ a ∈ frags, ∃ e, process a = .error e) →
        ∃ e', search_run (.ok frags) process = (.error e', 0))
      ∧ ((∀ a ∈ frags, ∃ b, process a = .ok b) →
        ∃ res, search_run (.ok frags) process = (.ok res, 1)
          ∧ res.length = frags.length) := by
  constructor
  · rintro ⟨a, ha, e, he⟩
    have hmem : Except.error e ∈ frags.map process :=
      List.mem_map.mpr ⟨a, ha, he⟩
    obtain ⟨e', he'⟩ := gatherExc_error_of_mem _ e hmem
    exact ⟨e', by simp [search_run, he']⟩
  · intro h
    have hall : ∀ x ∈ frags.map process, ∃ b, x = .ok b := by
      intro x hx
      obtain ⟨a, ha, rfl⟩ := List.mem_map.mp hx
      exact h a ha
    obtain ⟨as, has, hlen⟩ := gatherExc_ok_of_all _ hall
    exact ⟨as, by simp [search_run, has], by simpa using hlen⟩

theorem search_fragment_error_propagates_witness :
    (∃ e', @search_run Unit Nat Nat (.ok [1, 2])
        (fun a => if a = 1 then .ok a else .error ()) = (.error e', 0))
      ∧ (∃ res, @search_run Unit Nat Nat (.ok [1, 2]) (fun a => .ok (a + 1))
          = (.ok res, 1) ∧ res.length = 2) :=
  ⟨(search_fragment_error_propagates [1, 2]
      (fun a => if a = 1 then .ok a else .error ())).1
      ⟨2, by decide, (), rfl⟩,
   (search_fragment_error_propagates [1, 2] (fun a => .ok (a + 1))).2
      (fun a _ => ⟨a + 1, rfl⟩)⟩

/-- C9, counterexample to the claim as stated: when `get_snippets` raises,
`search` terminates by exception and `client.aclose()` — which only runs on
the fall-through path, with no `try`/`finally` — is never executed: the
client is closed zero times on this exit path, not exactly once. -/
theorem search_exception_skips_close_cex :
    (@search_run Unit Nat Nat (.error ()) (fun a => .ok a)).2 = 0 := rfl

/-- C9 (amended): the HTTP client is closed exactly once on the *success*
path of both pipelines; on an exception path the close is skipped entirely
(zero closes): in `search` both a snippet-fetch failure and any fragment
task's failure (re-raised by the gather) skip `aclose`, and in
`check_local_libs` a failure while listing the local libraries does the
same.  Per-entry failures in `check_local_libs` are captured by
`return_exceptions=True` and still reach the single close. -/
theorem session_close_discipline {ε α β : Type}
    (frags : List α) (process : α → Except ε β) (snips_err : ε)
    (libs : List (LocalLib × RemoteResult)) (libs_err : ε) :
    ((∀ a ∈ frags, ∃ b, process a = .ok b) →
        (search_run (.ok frags) process).2 = 1)
      ∧ (@search_run ε α β (.error snips_err) process).2 = 0
      ∧ ((∃ a ∈ frags, ∃ e, process a = .error e) →
        (search_run (.ok frags) process).2 = 0)
      ∧ (@check_local_libs_run ε (.ok libs)).2 = 1
      ∧ (@check_local_libs_run ε (.error libs_err)).2 = 0 := by
  refine ⟨?_, rfl, ?_, rfl, rfl⟩
  · intro h
    have hall : ∀ x ∈ frags.map process, ∃ b, x = .ok b := by
      intro x hx
      obtain ⟨a, ha, rfl⟩ := List.mem_map.mp hx
      exact h a ha
    obtain ⟨as, has, -⟩ := gatherExc_ok_of_all _ hall
    simp [search_run, has]
  · rintro ⟨a, ha, e, he⟩
    have hmem : Except.error e ∈ frags.map process :=
      List.mem_map.mpr ⟨a, ha, he⟩
    obtain ⟨e', he'⟩ := gatherExc_error_of_mem _ e hmem
    simp [search_run, he']

theorem session_close_discipline_witness :
    (@search_run Unit Nat Nat (.ok [7]) (fun a => .ok a)).2 = 1
      ∧ (@search_run Unit Nat Nat (.ok [7]) (fun _ => .error ())).2 = 0
      ∧ (@check_local_libs_run Unit (.error ())).2 = 0 :=
  ⟨(session_close_discipline [7] (fun a => .ok a) () [] ()).1
      (fun a _ => ⟨a, rfl⟩),
   (session_close_discipline [7] (fun _ : Nat => Except.error ()) () []
      ()).2.2.1 ⟨7, by decide, (), rfl⟩,
   (session_close_discipline ([7] : List Nat)
      (fun a : Nat => Except.ok a) () [] ()).2.2.2.2⟩

/-- C3: divergence at the failing input.  For statuses 401/403/404
`get_repo_info` does return the zeroed/unset stats record, and a well-formed
200 body populates the stats; but at status 200 with a *malformed JSON body*
`r.json()` raises `json.JSONDecodeError` — a `ValueError`, absent from the
`except (KeyError, TypeError, AttributeError)` clause — so the exception
escapes `get_repo_info`, and through `process_snippet` and the gather it
aborts the whole search instead of never failing it. -/
theorem get_repo_info_malformed_json_raises :
    get_repo_info "https://github.com/u/r" 200 .malformed
        = .error .jsonDecodeError
      ∧ get_repo_info "https://github.com/u/r" 401 (.fields none none none)
          = .ok (some repoInfoInit)
      ∧ get_repo_info "https://github.com/u/r" 403 (.fields none none none)
          = .ok (some repoInfoInit)
      ∧ get_repo_info "https://github.com/u/r" 404 (.fields none none none)
          = .ok (some repoInfoInit)
      ∧ get_repo_info "https://github.com/u/r" 200
          (.fields (some 5) (some 2) (some 7))
          = .ok (some ⟨5, 2, 7, true, "https://github.com/u/r"⟩)
      ∧ @search_run PyError Unit PackageGH (.ok [()])
          (fun _ =>
            enrich_from_api mkPackageGH "https://github.com/u/r" 200
              .malformed)
          = (.error .jsonDecodeError, 0) :=
  ⟨rfl, rfl, rfl, rfl, rfl, rfl⟩

/-- C7, counterexample to the claim as stated: an enrichment attempt that
ends in a 401 response does *not* leave `info_set` false — `get_repo_info`
returns the five-key zeroed dictionary, which is truthy, so
`process_snippet` calls `set_gh_info` and the flag becomes true with zeroed
stats. -/
theorem enrich_401_sets_info_set_cex :
    enrich_from_api mkPackageGH "https://github.com/u/r" 401
        (.fields none none none)
      = .ok ⟨0, 0, 0, "", true⟩ := rfl

/-- C7 (amended): `info_set` is false at construction and the transition is
one-way — `set_gh_info` is the only writer, it always sets the flag true,
and no enrichment outcome resets a true flag.  But the flag turns true
whenever enrichment hands back *any* info dictionary — including the zeroed,
unset dictionary produced for 401/403/404 — not only on successful
enrichment; it stays false only when no dictionary comes back at all (no
GitHub link, or a status outside {200, 401, 403, 404}, where `get_repo_info`
falls through and returns `None`). -/
theorem info_set_transition (p : PackageGH) (info : RepoInfo)
    (repo rn : String) (status : Nat) (body : JsonBody) :
    mkPackageGH.info_set = false
      ∧ (set_gh_info p info).info_set = true
      ∧ (∀ gh, p.info_set = true → (enrich_step p gh).info_set = true)
      ∧ enrich_step p none = p
      ∧ (parseRepoName repo = some rn →
          status = 401 ∨ status = 403 ∨ status = 404 →
          enrich_from_api p repo status body
            = .ok (set_gh_info p repoInfoInit))
      ∧ (parseRepoName repo = some rn →
          status ≠ 200 → status ≠ 401 → status ≠ 403 → status ≠ 404 →
          enrich_from_api p repo status body = .ok p) := by
  refine ⟨rfl, rfl, ?_, rfl, ?_, ?_⟩
  · intro gh hp
    cases gh with
    | none => simpa [enrich_step] using hp
    | some i => rfl
  · intro hr hs
    rcases hs with rfl | rfl | rfl <;>
      simp [enrich_from_api, get_repo_info, hr, enrich_step]
  · intro hr h200 h401 h403 h404
    simp [enrich_from_api, get_repo_info, hr, h200, h401, h403, h404,
      enrich_step]

theorem info_set_transition_witness :
    enrich_from_api mkPackageGH "https://github.com/u/r" 403
        (.fields none none none) = .ok (set_gh_info mkPackageGH repoInfoInit)
      ∧ enrich_from_api mkPackageGH "https://github.com/u/r" 500
        (.fields none none none) = .ok mkPackageGH :=
  ⟨(info_set_transition mkPackageGH repoInfoInit "https://github.com/u/r"
      "u/r" 403 (.fields none none none)).2.2.2.2.1 (by decide)
      (Or.inr (Or.inl rfl)),
   (info_set_transition mkPackageGH repoInfoInit "https://github.com/u/r"
      "u/r" 500 (.fields none none none)).2.2.2.2.2 (by decide) (by decide)
      (by decide) (by decide) (by decide)⟩

/-- C8: `get_version_from_link` is a total function of the fetch outcome —
`finally: return version` swallows every exception, so it never raises.
When the GET itself fails the sentinel is `"[notfound]"`; when the page
fetches but the version selector finds nothing the sentinel is
`"noversion"`; on success the stripped selector text is returned.  In every
case `process_snippet` still assembles the record around whatever string
came back — the record (and hence the batch) is not aborted by a version
failure. -/
theorem get_version_sentinel_total (frag : FragData) (f : VersionFetch) :
    get_version_from_link .raised = "[notfound]"
      ∧ get_version_from_link (.page none) = "noversion"
      ∧ (∀ t, get_version_from_link (.page (some t)) = t.trim)
      ∧ assemble_record frag f =
          { name := frag.name, version := get_version_from_link f,
            released := frag.released, description := frag.description,
            link := frag.link } :=
  ⟨rfl, rfl, fun _ => rfl, rfl⟩

/-- C10, counterexample to the claim as stated: the query sent to the search
endpoint is built with `"".join(args.query)` in both `get_snippets` and
`get_session`, so the terms `["foo", "bar"]` produce the query `"foobar"`,
not the space-joined `"foo bar"` the claim states (that form exists only as
the display title in `__main__`). -/
theorem query_space_join_cex :
    get_snippets_query ["foo", "bar"] = "foobar"
      ∧ get_session_query ["foo", "bar"] = "foobar"
      ∧ get_snippets_query ["foo", "bar"] ≠ spec_query ["foo", "bar"]
      ∧ spec_query ["foo", "bar"] = "foo bar" :=
  ⟨rfl, rfl, by decide, rfl⟩

/-- C10 (amended): the query string sent to the search endpoint — in the
session-establishment request and in the paginated snippet requests alike —
is the positional terms joined with the *empty* separator (concatenated);
the two request sites agree with each other, agree with the spec's
space-join only on zero- or one-term queries, and `["foo", "bar"]` yields
`"foobar"`, while the space-joined form is used only for the displayed
table title. -/
theorem query_join_agreement (terms : List String) (t : String) :
    get_snippets_query terms = get_session_query terms
      ∧ get_snippets_query [t] = spec_query [t]
      ∧ get_snippets_query [] = spec_query []
      ∧ main_display_query terms = spec_query terms
      ∧ get_snippets_query ["foo", "bar"] = "foobar" :=
  ⟨rfl, rfl, rfl, rfl, rfl⟩

end PipSearch
